import Mathlib

/-!
Verification of the datahub-service e2e test harness:
a shallow embedding of the response-normalization, retry, cleanup,
workflow-orchestration, health-validation, reporting and configuration
layers of the repository, followed by theorems settling the spec claims.
-/

namespace DatahubE2E

/-- JSON values as produced by Python `json.loads`: `null`, booleans, numbers
(modelled as integers), strings, arrays and objects (association lists in
insertion order, as Python dicts preserve insertion order). -/
inductive Json where
  | null : Json
  | bool (b : Bool) : Json
  | num (n : Int) : Json
  | str (s : String) : Json
  | arr (elems : List Json) : Json
  | obj (fields : List (String × Json)) : Json

/-- Python truthiness of a parsed JSON value: `None`, `False`, `0`, `""`,
`[]` and `{}` are falsy, everything else truthy. -/
def truthy : Json → Bool
  | .null => false
  | .bool b => b
  | .num n => n != 0
  | .str s => s != ""
  | .arr elems => !elems.isEmpty
  | .obj fields => !fields.isEmpty

/-- Python `dict.get(key)`: the value stored under `key`, or `None`
(here `Option.none`) when absent. -/
def dictGet (fields : List (String × Json)) (key : String) : Option Json :=
  (fields.find? (fun p => p.1 == key)).map (fun p => p.2)

/-- The view of a raw HTTP response kept by `APIResponse.__init__`
(`e2e_tests/utils/api_client.py`): the transport status code, the body parsed
as JSON (`none` when `response.json()` raises, i.e. the body is not parsable
JSON — Python also maps a literal `null` body to `None`), and the raw text. -/
structure APIResponse where
  status_code : Nat
  json_data : Option Json
  text : String

/-- `APIResponse.is_success`: transport success, status code in `[200, 300)`. -/
def is_success (r : APIResponse) : Bool :=
  decide (200 ≤ r.status_code) && decide (r.status_code < 300)

/-- Python `str.lower()`, character by character. -/
def pyLower (s : String) : String :=
  String.mk (s.toList.map Char.toLower)

/-- Results of evaluating a Python property that may raise: `.ok` is a normal
return, `.error` carries the exception class name. -/
abbrev PyResult (α : Type) := Except String α

instance {ε α : Type} [DecidableEq ε] [DecidableEq α] : DecidableEq (Except ε α) := fun a b =>
  match a, b with
  | .ok x, .ok y =>
    if h : x = y then isTrue (by rw [h]) else isFalse (fun hc => h (Except.ok.inj hc))
  | .error x, .error y =>
    if h : x = y then isTrue (by rw [h]) else isFalse (fun hc => h (Except.error.inj hc))
  | .ok _, .error _ => isFalse (fun hc => Except.noConfusion hc)
  | .error _, .ok _ => isFalse (fun hc => Except.noConfusion hc)

/-- `APIResponse.business_success`: returns `False` when `json_data` is falsy
(`if not self.json_data: return False`); otherwise reads
`self.json_data.get("status")` — an `AttributeError` when the parsed body is a
truthy non-dict — and applies: integer status (Python `isinstance(status, int)`
also accepts booleans) means success iff `status == 0`; string status means
success iff its lowercasing is one of `success`, `ok`, `200`; anything else
falls back to `is_success`. -/
def business_success (r : APIResponse) : PyResult Bool :=
  match r.json_data with
  | none => .ok false
  | some j =>
    if !truthy j then .ok false
    else
      match j with
      | .obj fields =>
        match dictGet fields "status" with
        | some (.num n) => .ok (n == 0)
        | some (.bool b) => .ok (!b)
        | some (.str s) =>
          .ok ([("success" : String), "ok", "200"].contains (pyLower s))
        | _ => .ok (is_success r)
      | _ => .error "AttributeError"

/-- `APIResponse.business_message`: empty string when `json_data` is falsy,
else `json_data.get("msg", json_data.get("message", ""))`; raises
`AttributeError` on a truthy non-dict body. -/
def business_message (r : APIResponse) : PyResult Json :=
  match r.json_data with
  | none => .ok (.str "")
  | some j =>
    if !truthy j then .ok (.str "")
    else
      match j with
      | .obj fields =>
        match dictGet fields "msg" with
        | some v => .ok v
        | none => .ok ((dictGet fields "message").getD (.str ""))
      | _ => .error "AttributeError"

/-- `APIResponse.business_data`: `None` when `json_data` is falsy, else
`json_data.get("data")`; raises `AttributeError` on a truthy non-dict body. -/
def business_data (r : APIResponse) : PyResult Json :=
  match r.json_data with
  | none => .ok .null
  | some j =>
    if !truthy j then .ok .null
    else
      match j with
      | .obj fields => .ok ((dictGet fields "data").getD .null)
      | _ => .error "AttributeError"

/-- `j.isObj`: whether a JSON value is an object (a Python dict). -/
def Json.isObj : Json → Bool
  | .obj _ => true
  | _ => false

/-- Whether evaluating a Python property raised an exception. -/
def raises {α : Type} : PyResult α → Bool
  | .ok _ => false
  | .error _ => true

/-- The counters and detail lists accumulated by `TestResult`
(`e2e_tests/run_tests.py`); timestamps are modelled as rational epoch
seconds. -/
structure TestResult where
  start_time : Option ℚ
  end_time : Option ℚ
  total_tests : Nat
  passed_tests : Nat
  failed_tests : Nat
  error_tests : Nat
  skipped_tests : Nat
  failures : List String
  errors : List String
  test_details : List String

/-- `TestResult.success_rate`: `0.0` when no tests ran, otherwise
`(passed_tests / total_tests) * 100`. -/
def success_rate (r : TestResult) : ℚ :=
  if r.total_tests = 0 then 0
  else (r.passed_tests : ℚ) / (r.total_tests : ℚ) * 100

/-- `TestResult.duration`: `(end_time - start_time).total_seconds()` when both
timestamps are set, otherwise `0.0`. -/
def duration (r : TestResult) : ℚ :=
  match r.start_time, r.end_time with
  | some s, some e => e - s
  | _, _ => 0

/-- A value stored in the JSON report produced by `TestResult.to_dict`. -/
inductive ReportValue where
  | vnum (q : ℚ)
  | vnat (n : Nat)
  | vstr (s : String)
  | vlist (xs : List String)
  | vnone

/-- `TestResult.to_dict`: the dictionary persisted under `test_results` in the
JSON report, in the key order of the source. -/
def to_dict (r : TestResult) : List (String × ReportValue) :=
  [("start_time", match r.start_time with | some t => .vnum t | none => .vnone),
   ("end_time", match r.end_time with | some t => .vnum t | none => .vnone),
   ("duration", .vnum (duration r)),
   ("total_tests", .vnat r.total_tests),
   ("passed_tests", .vnat r.passed_tests),
   ("failed_tests", .vnat r.failed_tests),
   ("error_tests", .vnat r.error_tests),
   ("skipped_tests", .vnat r.skipped_tests),
   ("success_rate", .vnum (success_rate r)),
   ("failures", .vlist r.failures),
   ("errors", .vlist r.errors),
   ("test_details", .vlist r.test_details)]

/-- A resource registered with `TestCleaner`: the id and the creation payload
(the dict of id and data appended by the register methods of
`e2e_tests/utils/test_helpers.py`). -/
structure Resource where
  id : String
  rdata : Json

/-- `TestCleaner.created_resources`: one list per resource kind, in
registration order. -/
structure CleanerState where
  basic_libraries : List Resource
  datasources : List Resource
  interfaces : List Resource

/-- The cleaner constructed by `TestCleaner.__init__`: all lists empty. -/
def emptyCleaner : CleanerState := ⟨[], [], []⟩

/-- One registration call on the cleaner. -/
inductive RegisterEvent where
  | lib (id : String) (d : Json)
  | ds (id : String) (d : Json)
  | itf (id : String) (d : Json)

/-- `register_basic_library` / `register_datasource` / `register_interface`:
append the resource to the list of its kind. -/
def register (st : CleanerState) : RegisterEvent → CleanerState
  | .lib i d => { st with basic_libraries := st.basic_libraries ++ [⟨i, d⟩] }
  | .ds i d => { st with datasources := st.datasources ++ [⟨i, d⟩] }
  | .itf i d => { st with interfaces := st.interfaces ++ [⟨i, d⟩] }

/-- The cleaner state after a sequence of registrations. -/
def stateOf (evs : List RegisterEvent) : CleanerState :=
  evs.foldl register emptyCleaner

/-- A delete call issued during cleanup, tagged by resource kind and carrying
the registered payload handed to the delete endpoint. -/
inductive DeleteCall where
  | delInterface (d : Json)
  | delDatasource (d : Json)
  | delLibrary (d : Json)

/-- What the API client does for one delete call: return a normalized
response, or raise (caught by the `except` of each cleanup loop). -/
inductive DeleteOutcome where
  | resp (r : APIResponse)
  | exn (msg : String)

/-- A log entry emitted by one cleanup iteration. -/
inductive CleanupLog where
  | deleted (id : String)
  | deleteFailed (id : String)
  | deleteError (id : String)

/-- The body of one cleanup iteration: inside the `try`, the delete call is
issued and `response.business_success` branches between the success log and
the failure warning; any exception — from the call or from
`business_success` itself — is caught and logged as an error. -/
def handleOutcome (id : String) : DeleteOutcome → CleanupLog
  | .exn _ => .deleteError id
  | .resp r =>
    match business_success r with
    | .error _ => .deleteError id
    | .ok true => .deleted id
    | .ok false => .deleteFailed id

/-- The shared shape of `_cleanup_interfaces`, `_cleanup_datasources` and
`_cleanup_basic_libraries`: walk the registered list in order, issue the
delete of the payload of each entry, log the outcome, and continue regardless. -/
def cleanupLoop (mk : Json → DeleteCall) (oracle : DeleteCall → DeleteOutcome) :
    List Resource → List DeleteCall × List CleanupLog
  | [] => ([], [])
  | r :: rest =>
    let c := mk r.rdata
    let entry := handleOutcome r.id (oracle c)
    let (cs, ls) := cleanupLoop mk oracle rest
    (c :: cs, entry :: ls)

/-- `TestCleaner.cleanup_all`: interfaces, then datasources, then basic
libraries; returns the delete calls issued in order and the emitted log. -/
def cleanup_all (oracle : DeleteCall → DeleteOutcome) (st : CleanerState) :
    List DeleteCall × List CleanupLog :=
  let itf := cleanupLoop DeleteCall.delInterface oracle st.interfaces
  let ds := cleanupLoop DeleteCall.delDatasource oracle st.datasources
  let lib := cleanupLoop DeleteCall.delLibrary oracle st.basic_libraries
  (itf.1 ++ ds.1 ++ lib.1, itf.2 ++ ds.2 ++ lib.2)

/-- The cleanup phase a delete call belongs to: interfaces first, then
datasources, then libraries. -/
def kindRank : DeleteCall → Nat
  | .delInterface _ => 0
  | .delDatasource _ => 1
  | .delLibrary _ => 2

lemma cleanupLoop_calls (mk : Json → DeleteCall)
    (oracle : DeleteCall → DeleteOutcome) (items : List Resource) :
    (cleanupLoop mk oracle items).1 = items.map (fun r => mk r.rdata) := by
  induction items with
  | nil => rfl
  | cons r rest ih => simp [cleanupLoop, ih]

lemma cleanupLoop_logs (mk : Json → DeleteCall)
    (oracle : DeleteCall → DeleteOutcome) (items : List Resource) :
    (cleanupLoop mk oracle items).2 =
      items.map (fun r => handleOutcome r.id (oracle (mk r.rdata))) := by
  induction items with
  | nil => rfl
  | cons r rest ih => simp [cleanupLoop, ih]

lemma pairwise_rank_map (k : Nat) (f : Resource → DeleteCall)
    (hf : ∀ r, kindRank (f r) = k) (items : List Resource) :
    (items.map f).Pairwise (fun a b => kindRank a ≤ kindRank b) := by
  induction items with
  | nil => simp
  | cons r rest ih =>
    refine List.Pairwise.cons ?_ ih
    intro c hc
    obtain ⟨r2, _, rfl⟩ := List.mem_map.mp hc
    rw [hf r, hf r2]

/-- A probe issued by `validate_workflow_health`
(`e2e_tests/basic-library/api_client.py`). -/
inductive ProbeCall where
  | getLibrary (id : String)
  | getDatasourceStatus (id : String)
  | getInterface (id : String)

/-- The `health_status` dict built by `validate_workflow_health`: three
per-resource status strings and the aggregated flag. -/
structure HealthStatus where
  library_status : String
  datasource_status : String
  interface_status : String
  overall_health : Bool

/-- `validate_workflow_health`: probe the library, then the datasource, then
the interface; mark each `healthy` on business success (statuses start as
`unknown`); `overall_health` is `all` of the three string comparisons with
`healthy`. Returns the result together with the probes issued in order; an
exception raised by `business_success` propagates (there is no handler)
after the probes issued so far. -/
def validate_workflow_health (oracle : ProbeCall → APIResponse)
    (library_id datasource_id interface_id : String) :
    PyResult HealthStatus × List ProbeCall :=
  let r1 := oracle (.getLibrary library_id)
  match business_success r1 with
  | .error e => (.error e, [.getLibrary library_id])
  | .ok b1 =>
    let s1 := if b1 then "healthy" else "unknown"
    let r2 := oracle (.getDatasourceStatus datasource_id)
    match business_success r2 with
    | .error e =>
      (.error e, [.getLibrary library_id, .getDatasourceStatus datasource_id])
    | .ok b2 =>
      let s2 := if b2 then "healthy" else "unknown"
      let r3 := oracle (.getInterface interface_id)
      match business_success r3 with
      | .error e =>
        (.error e, [.getLibrary library_id, .getDatasourceStatus datasource_id,
                    .getInterface interface_id])
      | .ok b3 =>
        let s3 := if b3 then "healthy" else "unknown"
        (.ok ⟨s1, s2, s3, (s1 == "healthy") && (s2 == "healthy") && (s3 == "healthy")⟩,
         [.getLibrary library_id, .getDatasourceStatus datasource_id,
          .getInterface interface_id])

/-- A call issued by `create_complete_workflow`, carrying its payload. -/
inductive WorkflowCall where
  | addBasicLibrary (d : Json)
  | addDatasource (d : Json)
  | addInterface (d : Json)
  | configureSchedule (d : Json)

/-- `create_complete_workflow`: create the library, the datasource and the
interface in order, stopping (and returning the results collected so far)
as soon as `business_success` of a creation is false; optionally configure
the schedule when `schedule_config` is truthy (its outcome is not checked).
Returns the `results` dict in insertion order together with the calls
issued; an exception from `business_success` propagates. -/
def create_complete_workflow (oracle : WorkflowCall → APIResponse)
    (library_data datasource_data interface_data : Json)
    (schedule_config : Option Json) :
    PyResult (List (String × APIResponse)) × List WorkflowCall :=
  let r1 := oracle (.addBasicLibrary library_data)
  match business_success r1 with
  | .error e => (.error e, [.addBasicLibrary library_data])
  | .ok false => (.ok [("basic_library", r1)], [.addBasicLibrary library_data])
  | .ok true =>
    let r2 := oracle (.addDatasource datasource_data)
    match business_success r2 with
    | .error e =>
      (.error e, [.addBasicLibrary library_data, .addDatasource datasource_data])
    | .ok false =>
      (.ok [("basic_library", r1), ("datasource", r2)],
       [.addBasicLibrary library_data, .addDatasource datasource_data])
    | .ok true =>
      let r3 := oracle (.addInterface interface_data)
      match business_success r3 with
      | .error e =>
        (.error e, [.addBasicLibrary library_data, .addDatasource datasource_data,
                    .addInterface interface_data])
      | .ok false =>
        (.ok [("basic_library", r1), ("datasource", r2), ("interface", r3)],
         [.addBasicLibrary library_data, .addDatasource datasource_data,
          .addInterface interface_data])
      | .ok true =>
        match schedule_config with
        | some sc =>
          if truthy sc then
            let r4 := oracle (.configureSchedule sc)
            (.ok [("basic_library", r1), ("datasource", r2), ("interface", r3),
                  ("schedule", r4)],
             [.addBasicLibrary library_data, .addDatasource datasource_data,
              .addInterface interface_data, .configureSchedule sc])
          else
            (.ok [("basic_library", r1), ("datasource", r2), ("interface", r3)],
             [.addBasicLibrary library_data, .addDatasource datasource_data,
              .addInterface interface_data])
        | none =>
          (.ok [("basic_library", r1), ("datasource", r2), ("interface", r3)],
           [.addBasicLibrary library_data, .addDatasource datasource_data,
            .addInterface interface_data])

/-- The status codes on which the adapter of the client retries
(`status_forcelist` in `APIClient.__init__`). -/
def status_forcelist : List Nat := [429, 500, 502, 503, 504]

/-- Modelled from the spec: the retry loop the client installs on its session
(`urllib3.util.retry.Retry` with `total = retry_count`, `backoff_factor = 1`
and the forcelist above, mounted through `HTTPAdapter`); the loop itself
lives in `urllib3`, outside this repository. Issue the attempt at index `i`;
while the returned status is in the forcelist and retry budget remains, back
off and reissue; when the budget is exhausted on a forcelisted status, raise
`MaxRetryError`. Returns the attempted responses in order and the outcome
handed back to the caller. -/
def sessionRun (resp : Nat → APIResponse) :
    Nat → Nat → List APIResponse × PyResult APIResponse
  | 0, i =>
    let r := resp i
    if r.status_code ∈ status_forcelist then ([r], .error "MaxRetryError")
    else ([r], .ok r)
  | b + 1, i =>
    let r := resp i
    if r.status_code ∈ status_forcelist then
      let rest := sessionRun resp b (i + 1)
      (r :: rest.1, rest.2)
    else ([r], .ok r)

/-- A line the client itself writes to its logger. -/
inductive ClientLog where
  | requestLine (method : String) (endpoint : String)
  | responseLine (status : Nat)
  | errorLine (msg : String)

/-- `APIClient.request`: log the request once (`self._log_request`), hand the
call to the session — whose mounted adapter performs the retries — then wrap
and log the response; a `requests` exception is logged and re-raised.
Returns the outcome, the log lines of the client itself, and the attempts the
session made. -/
def request (retry_count : Nat) (method endpoint : String)
    (resp : Nat → APIResponse) :
    PyResult APIResponse × List ClientLog × List APIResponse :=
  let run := sessionRun resp retry_count 0
  match run.2 with
  | .ok r =>
    (.ok r, [.requestLine method endpoint, .responseLine r.status_code], run.1)
  | .error e =>
    (.error e, [.requestLine method endpoint, .errorLine e], run.1)

/-- How many request lines the client logged. -/
def countRequestLines (ls : List ClientLog) : Nat :=
  ls.countP (fun l => match l with | .requestLine _ _ => true | _ => false)

/-- An HTTP 503 response with an unparsable body. -/
def resp503 : APIResponse := ⟨503, none, ""⟩

/-- An HTTP 200 response with business status 0. -/
def resp200 : APIResponse := ⟨200, some (.obj [("status", .num 0)]), ""⟩

/-- The endpoint of the retry scenario: 503 on the attempts with 0-based
index below `n`, 200 from attempt index `n` on. -/
def flaky (n : Nat) : Nat → APIResponse :=
  fun i => if i < n then resp503 else resp200

lemma sessionRun_flaky (m : Nat) :
    ∀ b i, i ≤ m → m ≤ i + b →
      sessionRun (flaky m) b i =
        (List.replicate (m - i) resp503 ++ [resp200], .ok resp200) := by
  intro b
  induction b with
  | zero =>
    intro i h1 h2
    have hi : i = m := le_antisymm h1 (by simpa using h2)
    subst hi
    simp [sessionRun, flaky, resp200, status_forcelist]
  | succ b ih =>
    intro i h1 h2
    rcases lt_or_eq_of_le h1 with hlt | heq
    · have hf : flaky m i = resp503 := by simp [flaky, hlt]
      have hstep : sessionRun (flaky m) (b + 1) i =
          (resp503 :: (sessionRun (flaky m) b (i + 1)).1,
           (sessionRun (flaky m) b (i + 1)).2) := by
        simp [sessionRun, hf, resp503, status_forcelist]
      rw [hstep, ih (i + 1) hlt (by omega)]
      have hm : m - i = (m - (i + 1)) + 1 := by omega
      rw [hm]
      simp [List.replicate_succ]
    · subst heq
      simp [sessionRun, flaky, resp200, status_forcelist]

/-- Whether the list `pat` occurs at the start of `s`. -/
def startsWithSeq : List Char → List Char → Bool
  | [], _ => true
  | _ :: _, [] => false
  | p :: ps, c :: cs => p == c && startsWithSeq ps cs

/-- Whether the list `pat` occurs contiguously anywhere in `s`. -/
def hasInfixSeq (pat : List Char) : List Char → Bool
  | [] => startsWithSeq pat []
  | c :: cs => startsWithSeq pat (c :: cs) || hasInfixSeq pat cs

/-- Python `"test_config.json" in config_path`. -/
def containsTestConfigName (path : String) : Bool :=
  hasInfixSeq "test_config.json".toList path.toList

/-- What the file system holds at a path, as seen by `open` + `json.load`:
a file that parses, a missing file (`FileNotFoundError`), a file whose
content does not parse (`json.JSONDecodeError`), or a file that exists but
cannot be read (an `OSError` such as `PermissionError`). -/
inductive FileState where
  | valid (j : Json)
  | missing
  | malformed
  | unreadable

/-- `TestConfig._get_default_common_config`
(`e2e_tests/config/test_config.py`), transcribed. -/
def default_common_config : Json :=
  .obj [
    ("api", .obj [
      ("base_url", .str "http://localhost:8080"),
      ("timeout", .num 30),
      ("retry_count", .num 3),
      ("headers", .obj [
        ("Content-Type", .str "application/json"),
        ("Accept", .str "application/json")])]),
    ("logging", .obj [
      ("level", .str "INFO"),
      ("format", .str "%(asctime)s - %(name)s - %(levelname)s - %(message)s"),
      ("file", .str "e2e_test.log")]),
    ("validation", .obj [
      ("required_response_fields", .obj [
        ("basic", .arr [.str "status", .str "msg"]),
        ("success", .arr [.str "status", .str "msg", .str "data"]),
        ("error", .arr [.str "status", .str "msg", .str "error"])]),
      ("expected_status_codes", .obj [
        ("success", .arr [.num 200, .num 201]),
        ("client_error", .arr [.num 400, .num 401, .num 403, .num 404]),
        ("server_error", .arr [.num 500, .num 502, .num 503])])]),
    ("test_environment", .obj [
      ("cleanup_on_failure", .bool true),
      ("max_test_duration", .num 300),
      ("parallel_test_limit", .num 5)])]

/-- `TestConfig._load_config`: open and parse `config_path`.
`FileNotFoundError` is caught — the documented defaults are substituted when
the path contains `test_config.json`, an empty dict otherwise;
`json.JSONDecodeError` is caught — an empty dict is substituted; any other
exception from `open` (an unreadable existing file) is not caught and
propagates. -/
def load_config (config_path : String) (fs : String → FileState) : PyResult Json :=
  match fs config_path with
  | .valid j => .ok j
  | .missing =>
    .ok (if containsTestConfigName config_path then default_common_config
         else .obj [])
  | .malformed => .ok (.obj [])
  | .unreadable => .error "PermissionError"

/-- The default search path handed to `_load_config` when no CLI override is
given: `os.path.join(self.config_dir, "test_config.json")`. -/
def defaultConfigPath : String := "config/test_config.json"

/-- How the configuration phase ends for the process. -/
inductive ConfigPhase where
  | proceeds (common : Json)
  | aborted (e : String)

/-- The configuration step of `main` (`e2e_tests/run_tests.py`): with
`--config-file` the configuration is rebuilt from that path
(`config = TestConfig(args.config_file)`, which sits before the `try` block,
so an uncaught exception terminates the process); without it, the
module-level `TestConfig()` built from the default search path is used (an
uncaught exception at import time likewise terminates). -/
def config_phase (cliConfigFile : Option String) (fs : String → FileState) :
    ConfigPhase :=
  let path := match cliConfigFile with
    | some p => p
    | none => defaultConfigPath
  match load_config path fs with
  | .ok j => .proceeds j
  | .error e => .aborted e

lemma business_success_obj_no_raise (code : Nat) (txt : String)
    (fields : List (String × Json)) :
    raises (business_success ⟨code, some (Json.obj fields), txt⟩) = false := by
  unfold business_success
  by_cases h : truthy (Json.obj fields)
  · simp only [h]
    rcases hd : dictGet fields "status" with _ | v
    · simp [hd, raises]
    · cases v <;> simp [hd, raises]
  · simp [h, raises]

lemma business_message_obj_no_raise (code : Nat) (txt : String)
    (fields : List (String × Json)) :
    raises (business_message ⟨code, some (Json.obj fields), txt⟩) = false := by
  unfold business_message
  by_cases h : truthy (Json.obj fields)
  · simp only [h]
    rcases hd : dictGet fields "msg" with _ | v <;> simp [hd, raises]
  · simp [h, raises]

lemma business_data_obj_no_raise (code : Nat) (txt : String)
    (fields : List (String × Json)) :
    raises (business_data ⟨code, some (Json.obj fields), txt⟩) = false := by
  unfold business_data
  by_cases h : truthy (Json.obj fields)
  · simp [h, raises]
  · simp [h, raises]

end DatahubE2E

namespace DatahubE2E

/-- Claim C1, counterexample: The claim says that for a response whose body does
not parse as JSON, `business_success` equals `transport_success`. At the
concrete response with HTTP status 200 and unparsable body `"plain text"`,
transport succeeded (`is_success = true`) yet `business_success` is `False`:
`APIResponse.business_success` starts with `if not self.json_data: return
False`, so it never falls back to transport success when the body is missing
or unparsable. -/
theorem c1_counterexample :
    is_success ⟨200, none, "plain text"⟩ = true ∧
    business_success ⟨200, none, "plain text"⟩ = .ok false ∧
    business_success ⟨200, none, "plain text"⟩ ≠
      .ok (is_success ⟨200, none, "plain text"⟩) := by
  decide

/-- Claim C1, amended: For every HTTP response whose body does not parse as
JSON, the normalized response has `business_success` equal to `False`
(not to `transport_success`; the two coincide only for non-2xx statuses) and
`business_payload` equal to `null`. -/
theorem c1_no_json_false_and_null_payload (r : APIResponse)
    (h : r.json_data = none) :
    business_success r = .ok false ∧ business_data r = .ok .null := by
  obtain ⟨code, jd, txt⟩ := r
  subst h
  exact ⟨rfl, rfl⟩

/-- Witness for `c1_no_json_false_and_null_payload` at a concrete response. -/
theorem c1_no_json_false_and_null_payload_witness :
    business_success ⟨503, none, "gateway timeout"⟩ = .ok false ∧
    business_data ⟨503, none, "gateway timeout"⟩ = .ok .null :=
  c1_no_json_false_and_null_payload ⟨503, none, "gateway timeout"⟩ rfl

/-- Claim C2, confirmed: For every HTTP response whose body parses as a JSON
object with an integer `status` field, `business_success` holds iff that
integer is `0`, for every HTTP transport status code. -/
theorem c2_int_status_decides_business_success (code : Nat) (txt : String)
    (fields : List (String × Json)) (n : Int)
    (h : dictGet fields "status" = some (.num n)) :
    business_success ⟨code, some (.obj fields), txt⟩ = .ok (n == 0) := by
  have hne : fields ≠ [] := by
    intro hnil
    rw [hnil] at h
    simp [dictGet] at h
  have htr : truthy (Json.obj fields) = true := by
    cases fields with
    | nil => exact absurd rfl hne
    | cons a l => simp [truthy]
  simp [business_success, htr, h]

/-- Witness for `c2_int_status_decides_business_success`: a business-level
failure (`status = -1`) carried on a transport-level success (HTTP 200). -/
theorem c2_int_status_decides_business_success_witness :
    business_success ⟨200, some (.obj [("status", .num (-1))]), ""⟩ =
      .ok ((-1 : Int) == 0) :=
  c2_int_status_decides_business_success 200 "" [("status", .num (-1))] (-1) rfl

/-- Claim C10, confirmed: For every JSON body, the three business accessors
all raise (an `AttributeError`, from calling `.get` on a non-dict) exactly
when the parsed body is truthy and not an object: the normalizer is total
precisely on object, null/unparsable and falsy bodies. -/
theorem c10_normalizer_partiality (code : Nat) (txt : String) (j : Json) :
    (raises (business_success ⟨code, some j, txt⟩) = true ∧
     raises (business_message ⟨code, some j, txt⟩) = true ∧
     raises (business_data ⟨code, some j, txt⟩) = true)
    ↔ (truthy j = true ∧ j.isObj = false) := by
  cases j with
  | obj fields =>
    simp [business_success_obj_no_raise, Json.isObj]
  | null => simp [business_success, business_message, business_data, truthy, Json.isObj, raises]
  | bool b =>
    cases b <;>
      simp [business_success, business_message, business_data, truthy, Json.isObj, raises]
  | num n =>
    by_cases h : truthy (Json.num n) <;>
      simp [business_success, business_message, business_data, h, Json.isObj, raises]
  | str s =>
    by_cases h : truthy (Json.str s) <;>
      simp [business_success, business_message, business_data, h, Json.isObj, raises]
  | arr elems =>
    by_cases h : truthy (Json.arr elems) <;>
      simp [business_success, business_message, business_data, h, Json.isObj, raises]

/-- Claim C3, counterexample: the claim says that for `N = 2` (within the
default `retry_count = 3`), an endpoint answering 503 then 200 yields a
transport success with exactly `N = 2` attempts logged by the client. The
transport part holds and the session does make 2 attempts, but the client
logs exactly one request line — `_log_request` runs once per `request()`
call, while the retries happen inside the mounted adapter — so the number of
attempts logged by the client is 1, not 2. -/
theorem c3_counterexample :
    (request 3 "GET" "health" (flaky 1)).1 = .ok resp200 ∧
    is_success resp200 = true ∧
    (request 3 "GET" "health" (flaky 1)).2.2.length = 2 ∧
    countRequestLines (request 3 "GET" "health" (flaky 1)).2.1 = 1 ∧
    (1 : Nat) ≠ 2 :=
  ⟨rfl, rfl, rfl, rfl, by decide⟩

/-- Claim C3, amended: for every `N` with `1 ≤ N ≤ retry_count`, a request
against an endpoint that returns 503 on the first `N - 1` attempts and 200
on attempt `N` yields a final normalized response with transport success,
and the session makes exactly `N` attempts — but the client logs exactly one
request line per `request()` call, not one per attempt. -/
theorem c3_retry_reaches_success (N retry_count : Nat)
    (h1 : 1 ≤ N) (h2 : N ≤ retry_count) :
    (request retry_count "GET" "health" (flaky (N - 1))).1 = .ok resp200 ∧
    is_success resp200 = true ∧
    (request retry_count "GET" "health" (flaky (N - 1))).2.2.length = N ∧
    countRequestLines (request retry_count "GET" "health" (flaky (N - 1))).2.1 = 1 := by
  have hrun := sessionRun_flaky (N - 1) retry_count 0 (by omega) (by omega)
  refine ⟨?_, rfl, ?_, ?_⟩
  · simp [request, hrun]
  · simp [request, hrun]
    omega
  · simp [request, hrun, countRequestLines]

/-- Witness for `c3_retry_reaches_success` at `N = 2`, `retry_count = 3`. -/
theorem c3_retry_reaches_success_witness :
    (request 3 "GET" "health" (flaky (2 - 1))).1 = .ok resp200 ∧
    is_success resp200 = true ∧
    (request 3 "GET" "health" (flaky (2 - 1))).2.2.length = 2 ∧
    countRequestLines (request 3 "GET" "health" (flaky (2 - 1))).2.1 = 1 :=
  c3_retry_reaches_success 2 3 (by decide) (by decide)

/-- Claim C9, counterexample: the claim says a process given an unreadable
path through the CLI `--config-file` override fails fast. With an explicitly
supplied path `my_custom.json` that cannot be opened because it is missing,
`_load_config` catches the `FileNotFoundError`, logs a warning and returns an
empty config (the path does not contain `test_config.json`), and `main`
proceeds — it does not terminate. -/
theorem c9_counterexample :
    config_phase (some "my_custom.json") (fun _ => .missing) =
      .proceeds (.obj []) :=
  rfl

/-- Claim C9, amended: configuration loading never aborts on a missing or
malformed file, CLI-supplied or not: a missing file on the default search
path yields the full documented defaults; a missing CLI-supplied path whose
name does not contain `test_config.json`, or a malformed file anywhere,
yields an empty config (with per-key defaults applied at access time) and
the process continues. Only an exception other than `FileNotFoundError` and
`JSONDecodeError` — an existing but unreadable file — escapes `_load_config`
and terminates the process. -/
theorem c9_config_fallback_behavior (p : String) (fs : String → FileState) :
    (fs defaultConfigPath = .missing →
      config_phase none fs = .proceeds default_common_config) ∧
    (fs p = .malformed →
      config_phase (some p) fs = .proceeds (.obj [])) ∧
    (fs p = .missing → containsTestConfigName p = false →
      config_phase (some p) fs = .proceeds (.obj [])) ∧
    (fs p = .unreadable →
      config_phase (some p) fs = .aborted "PermissionError") := by
  refine ⟨?_, ?_, ?_, ?_⟩
  · intro h
    have hc : containsTestConfigName defaultConfigPath = true := by decide
    simp [config_phase, load_config, h, hc]
  · intro h
    simp [config_phase, load_config, h]
  · intro h hc
    simp [config_phase, load_config, h, hc]
  · intro h
    simp [config_phase, load_config, h]

/-- Witness for `c9_config_fallback_behavior`: a file system on which the
default path is missing, the CLI path `custom.json` is malformed, and an
unreadable path aborts. -/
theorem c9_config_fallback_behavior_witness :
    config_phase none (fun _ => .missing) = .proceeds default_common_config ∧
    config_phase (some "custom.json") (fun _ => .malformed) = .proceeds (.obj []) ∧
    config_phase (some "locked.json") (fun _ => .unreadable) =
      .aborted "PermissionError" :=
  ⟨(c9_config_fallback_behavior "x" (fun _ => .missing)).1 rfl,
   (c9_config_fallback_behavior "custom.json" (fun _ => .malformed)).2.1 rfl,
   (c9_config_fallback_behavior "locked.json" (fun _ => .unreadable)).2.2.2 rfl⟩

/-- Claim C4, confirmed: for every sequence of resources registered with the
cleaner, in any registration order and for any delete outcomes, the delete
calls issued by `cleanup_all` are ordered by phase: every interface deletion
comes before every datasource deletion, and every datasource deletion before
every library deletion. -/
theorem c4_cleanup_phase_order (evs : List RegisterEvent)
    (oracle : DeleteCall → DeleteOutcome) :
    ((cleanup_all oracle (stateOf evs)).1).Pairwise
      (fun a b => kindRank a ≤ kindRank b) := by
  simp only [cleanup_all, cleanupLoop_calls]
  rw [List.pairwise_append, List.pairwise_append]
  refine ⟨⟨pairwise_rank_map 0 (fun r => DeleteCall.delInterface r.rdata) (fun r => rfl) _,
           pairwise_rank_map 1 (fun r => DeleteCall.delDatasource r.rdata) (fun r => rfl) _,
           ?_⟩,
          pairwise_rank_map 2 (fun r => DeleteCall.delLibrary r.rdata) (fun r => rfl) _,
          ?_⟩
  · intro a ha b hb
    obtain ⟨ra, _, rfl⟩ := List.mem_map.mp ha
    obtain ⟨rb, _, rfl⟩ := List.mem_map.mp hb
    simp [kindRank]
  · intro a ha b hb
    obtain ⟨rb, _, rfl⟩ := List.mem_map.mp hb
    rcases List.mem_append.mp ha with ha | ha
    · obtain ⟨ra, _, rfl⟩ := List.mem_map.mp ha
      simp [kindRank]
    · obtain ⟨ra, _, rfl⟩ := List.mem_map.mp ha
      simp [kindRank]

/-- Claim C7, confirmed: cleanup is best-effort. The list of delete calls the
cleaner issues does not depend on the outcomes (failures or raised
exceptions do not abort the loops): every registered resource of every kind
has its delete call in the issued list, and the outcome of each attempt —
including warning and error entries for failed deletes — appears in the log. -/
theorem c7_cleanup_best_effort (evs : List RegisterEvent)
    (oracle oracle2 : DeleteCall → DeleteOutcome) :
    (cleanup_all oracle (stateOf evs)).1 =
      (cleanup_all oracle2 (stateOf evs)).1 ∧
    (∀ r ∈ (stateOf evs).interfaces,
       DeleteCall.delInterface r.rdata ∈ (cleanup_all oracle (stateOf evs)).1 ∧
       handleOutcome r.id (oracle (.delInterface r.rdata)) ∈
         (cleanup_all oracle (stateOf evs)).2) ∧
    (∀ r ∈ (stateOf evs).datasources,
       DeleteCall.delDatasource r.rdata ∈ (cleanup_all oracle (stateOf evs)).1 ∧
       handleOutcome r.id (oracle (.delDatasource r.rdata)) ∈
         (cleanup_all oracle (stateOf evs)).2) ∧
    (∀ r ∈ (stateOf evs).basic_libraries,
       DeleteCall.delLibrary r.rdata ∈ (cleanup_all oracle (stateOf evs)).1 ∧
       handleOutcome r.id (oracle (.delLibrary r.rdata)) ∈
         (cleanup_all oracle (stateOf evs)).2) := by
  refine ⟨by simp [cleanup_all, cleanupLoop_calls], ?_, ?_, ?_⟩
  · intro r hr
    constructor
    · simp only [cleanup_all, cleanupLoop_calls]
      exact List.mem_append.mpr (Or.inl (List.mem_append.mpr
        (Or.inl (List.mem_map_of_mem (fun r => DeleteCall.delInterface r.rdata) hr))))
    · simp only [cleanup_all, cleanupLoop_logs]
      exact List.mem_append.mpr (Or.inl (List.mem_append.mpr (Or.inl
        (List.mem_map_of_mem
          (fun r => handleOutcome r.id (oracle (DeleteCall.delInterface r.rdata))) hr))))
  · intro r hr
    constructor
    · simp only [cleanup_all, cleanupLoop_calls]
      exact List.mem_append.mpr (Or.inl (List.mem_append.mpr
        (Or.inr (List.mem_map_of_mem (fun r => DeleteCall.delDatasource r.rdata) hr))))
    · simp only [cleanup_all, cleanupLoop_logs]
      exact List.mem_append.mpr (Or.inl (List.mem_append.mpr (Or.inr
        (List.mem_map_of_mem
          (fun r => handleOutcome r.id (oracle (DeleteCall.delDatasource r.rdata))) hr))))
  · intro r hr
    constructor
    · simp only [cleanup_all, cleanupLoop_calls]
      exact List.mem_append.mpr
        (Or.inr (List.mem_map_of_mem (fun r => DeleteCall.delLibrary r.rdata) hr))
    · simp only [cleanup_all, cleanupLoop_logs]
      exact List.mem_append.mpr (Or.inr
        (List.mem_map_of_mem
          (fun r => handleOutcome r.id (oracle (DeleteCall.delLibrary r.rdata))) hr))

/-- Witness for `c7_cleanup_best_effort`: with an oracle that raises on every
delete, the error entry for the registered interface still appears in the
log of a cleanup that also has a library to process. -/
theorem c7_cleanup_best_effort_witness :
    handleOutcome "itf1"
        ((fun _ => DeleteOutcome.exn "boom") (DeleteCall.delInterface (.str "payload"))) ∈
      (cleanup_all (fun _ => DeleteOutcome.exn "boom")
        (stateOf [.itf "itf1" (.str "payload"), .lib "lib1" (.str "p2")])).2 := by
  have h := c7_cleanup_best_effort [.itf "itf1" (.str "payload"), .lib "lib1" (.str "p2")]
    (fun _ => DeleteOutcome.exn "boom") (fun _ => DeleteOutcome.exn "boom")
  refine (h.2.1 ⟨"itf1", .str "payload"⟩ ?_).2
  show Resource.mk "itf1" (.str "payload") ∈ [Resource.mk "itf1" (.str "payload")]
  exact List.mem_singleton.mpr rfl

/-- Claim C5, confirmed: whenever the three probed responses yield business
flags `b1`, `b2`, `b3` (no exception), `validate_workflow_health` issues all
three probes — library get, datasource status, interface get — even when an
earlier probe reports unhealthy, and returns `overall_health` equal to the
conjunction `b1 && b2 && b3`. -/
theorem c5_health_all_probes_and_conjunction (oracle : ProbeCall → APIResponse)
    (lid did iid : String) (b1 b2 b3 : Bool)
    (h1 : business_success (oracle (.getLibrary lid)) = .ok b1)
    (h2 : business_success (oracle (.getDatasourceStatus did)) = .ok b2)
    (h3 : business_success (oracle (.getInterface iid)) = .ok b3) :
    (validate_workflow_health oracle lid did iid).2 =
      [.getLibrary lid, .getDatasourceStatus did, .getInterface iid] ∧
    (validate_workflow_health oracle lid did iid).1 =
      .ok ⟨if b1 then "healthy" else "unknown",
           if b2 then "healthy" else "unknown",
           if b3 then "healthy" else "unknown",
           b1 && b2 && b3⟩ := by
  cases b1 <;> cases b2 <;> cases b3 <;>
    simp [validate_workflow_health, h1, h2, h3]

/-- Witness for `c5_health_all_probes_and_conjunction`: with a healthy
library, an unhealthy datasource (business status 500) and a healthy
interface, all three probes are issued and `overall_health` is false. -/
theorem c5_health_all_probes_and_conjunction_witness :
    (validate_workflow_health
        (fun c => match c with
          | .getDatasourceStatus _ => ⟨200, some (.obj [("status", .num 500)]), ""⟩
          | _ => ⟨200, some (.obj [("status", .num 0)]), ""⟩)
        "lib1" "ds1" "itf1").2 =
      [.getLibrary "lib1", .getDatasourceStatus "ds1", .getInterface "itf1"] ∧
    (validate_workflow_health
        (fun c => match c with
          | .getDatasourceStatus _ => ⟨200, some (.obj [("status", .num 500)]), ""⟩
          | _ => ⟨200, some (.obj [("status", .num 0)]), ""⟩)
        "lib1" "ds1" "itf1").1 =
      .ok ⟨if true then "healthy" else "unknown",
           if false then "healthy" else "unknown",
           if true then "healthy" else "unknown",
           true && false && true⟩ :=
  c5_health_all_probes_and_conjunction _ "lib1" "ds1" "itf1" true false true rfl rfl rfl

/-- Claim C8, confirmed: in `create_complete_workflow`, whichever creation
step (library, datasource, interface) returns `business_success = false`
aborts the sequence — no later create or schedule call is issued — and the
results collected so far, the failing step included, are returned. -/
theorem c8_workflow_aborts_on_business_failure (oracle : WorkflowCall → APIResponse)
    (ld dd idata : Json) (sc : Option Json) :
    (business_success (oracle (.addBasicLibrary ld)) = .ok false →
      create_complete_workflow oracle ld dd idata sc =
        (.ok [("basic_library", oracle (.addBasicLibrary ld))],
         [.addBasicLibrary ld])) ∧
    (business_success (oracle (.addBasicLibrary ld)) = .ok true →
     business_success (oracle (.addDatasource dd)) = .ok false →
      create_complete_workflow oracle ld dd idata sc =
        (.ok [("basic_library", oracle (.addBasicLibrary ld)),
              ("datasource", oracle (.addDatasource dd))],
         [.addBasicLibrary ld, .addDatasource dd])) ∧
    (business_success (oracle (.addBasicLibrary ld)) = .ok true →
     business_success (oracle (.addDatasource dd)) = .ok true →
     business_success (oracle (.addInterface idata)) = .ok false →
      create_complete_workflow oracle ld dd idata sc =
        (.ok [("basic_library", oracle (.addBasicLibrary ld)),
              ("datasource", oracle (.addDatasource dd)),
              ("interface", oracle (.addInterface idata))],
         [.addBasicLibrary ld, .addDatasource dd, .addInterface idata])) := by
  refine ⟨?_, ?_, ?_⟩
  · intro h1
    simp [create_complete_workflow, h1]
  · intro h1 h2
    simp [create_complete_workflow, h1, h2]
  · intro h1 h2 h3
    simp [create_complete_workflow, h1, h2, h3]

/-- Witness for `c8_workflow_aborts_on_business_failure`: with an oracle whose
datasource creation reports business status 500 (and a schedule config
present), the workflow stops after two calls and returns the two collected
results. -/
theorem c8_workflow_aborts_on_business_failure_witness :
    create_complete_workflow
        (fun c => match c with
          | .addDatasource _ => ⟨200, some (.obj [("status", .num 500)]), ""⟩
          | _ => ⟨200, some (.obj [("status", .num 0)]), ""⟩)
        (.str "lib") (.str "ds") (.str "itf") (some (.obj [("cron", .str "h")])) =
      (.ok [("basic_library", ⟨200, some (.obj [("status", .num 0)]), ""⟩),
            ("datasource", ⟨200, some (.obj [("status", .num 500)]), ""⟩)],
       [.addBasicLibrary (.str "lib"), .addDatasource (.str "ds")]) :=
  (c8_workflow_aborts_on_business_failure _ (.str "lib") (.str "ds") (.str "itf")
    (some (.obj [("cron", .str "h")]))).2.1 rfl rfl

/-- Claim C6, counterexample: the claim says the recorded `success_rate`
equals the fraction `passed/total`. For a completed run with 2 tests of which
1 passed, `TestResult.success_rate` records `50` (it multiplies the fraction
by 100), while the fraction is `1/2`. -/
theorem c6_counterexample :
    success_rate ⟨none, none, 2, 1, 1, 0, 0, [], [], []⟩ = 50 ∧
    (to_dict ⟨none, none, 2, 1, 1, 0, 0, [], [], []⟩).lookup "success_rate" =
      some (.vnum 50) ∧
    (1 : ℚ) / 2 ≠ 50 := by
  refine ⟨by norm_num [success_rate], ?_, by norm_num⟩
  have h : (to_dict ⟨none, none, 2, 1, 1, 0, 0, [], [], []⟩).lookup "success_rate" =
      some (.vnum (success_rate ⟨none, none, 2, 1, 1, 0, 0, [], [], []⟩)) := rfl
  rw [h]
  norm_num [success_rate]

/-- Claim C6, amended: for every completed run with `total > 0`, the
`success_rate` recorded in the summary and persisted under the
`success_rate` key of the JSON report equals `(passed/total) * 100`, the
percentage of passed tests over total tests. -/
theorem c6_success_rate_is_percentage (r : TestResult)
    (h : r.total_tests ≠ 0) :
    success_rate r = (r.passed_tests : ℚ) / (r.total_tests : ℚ) * 100 ∧
    (to_dict r).lookup "success_rate" =
      some (.vnum ((r.passed_tests : ℚ) / (r.total_tests : ℚ) * 100)) := by
  have hs : success_rate r = (r.passed_tests : ℚ) / (r.total_tests : ℚ) * 100 := by
    simp [success_rate, h]
  have hl : (to_dict r).lookup "success_rate" = some (.vnum (success_rate r)) := rfl
  exact ⟨hs, by rw [hl, hs]⟩

/-- Witness for `c6_success_rate_is_percentage`: a run of 4 tests with 3
passed records a rate of 75. -/
theorem c6_success_rate_is_percentage_witness :
    success_rate ⟨none, none, 4, 3, 1, 0, 0, [], [], []⟩ =
      (3 : ℚ) / (4 : ℚ) * 100 ∧
    (to_dict ⟨none, none, 4, 3, 1, 0, 0, [], [], []⟩).lookup "success_rate" =
      some (.vnum ((3 : ℚ) / (4 : ℚ) * 100)) :=
  c6_success_rate_is_percentage ⟨none, none, 4, 3, 1, 0, 0, [], [], []⟩ (by decide)

end DatahubE2E
